import Mathlib

/-! Shallow embedding of the NetApp-CIA file-analysis pipeline
(`backend/file_classifier.py`): the PII pattern registry, the bounded
reader `safe_read`, the language detector `detect_language`, the
single-file analyzer `analyze_single_file` and the batch orchestrator
`classify_files_batch`.  External libraries and the operating system
(Magika, `mimetypes`, `chardet`, `langdetect`/`langcodes`, file bytes,
`os.path.getsize`, the clock) are modelled as explicit per-file
environment oracles; everything computed by the module itself is
translated directly from the source. -/

namespace CIA

/-- A value stored in a result record.  The Python dicts built by the
classifier hold exactly strings, booleans and lists of strings. -/
inductive Val where
  | s (v : String)
  | b (v : Bool)
  | ls (v : List String)
deriving DecidableEq, Repr

/-- A result record: a Python dict with string keys, in insertion order. -/
abbrev RecD := List (String × Val)

/-- Field lookup in a record (keys are unique in every record built here). -/
def getF (r : RecD) (k : String) : Option Val :=
  (r.find? (fun kv => kv.1 == k)).map Prod.snd

/-- The keys of a record, in insertion order. -/
def keysOf (r : RecD) : List String := r.map Prod.fst

/-- Python `x or d` on an optional string: `None` and `""` are falsy. -/
def pyOrStr (x : Option String) (d : String) : String :=
  match x with
  | some s => if s = "" then d else s
  | none => d

/-- `os.path.basename` for POSIX paths: the part after the last slash. -/
def basename (p : String) : String :=
  String.mk ((p.data.reverse.takeWhile (fun c => c ≠ '/')).reverse)

/-- The extension component of `os.path.splitext`: the suffix of the
basename starting at its last dot, provided some earlier character of the
basename is not a dot (so dotfiles such as `.txt` have no extension). -/
def splitextExt (p : String) : String :=
  let b := (basename p).data
  let revTail := b.reverse.takeWhile (fun c => c ≠ '.')
  if revTail.length = b.length then ""
  else
    let dotIdx := b.length - revTail.length - 1
    if (b.take dotIdx).any (fun c => c ≠ '.') then String.mk (b.drop dotIdx) else ""

/-- Python `str.lower()` (ASCII case mapping; the Python method is
Unicode-aware, which differs only on non-ASCII characters). -/
def pyToLower (s : String) : String := String.mk (s.data.map Char.toLower)

/-- Python `ext.lstrip(".")`: remove every leading dot. -/
def pyLstripDot (s : String) : String :=
  String.mk (s.data.dropWhile (fun c => c = '.'))

/-- ASCII whitespace as stripped by Python `str.strip()` and matched by the
regex class `\s` (the Python engine also covers non-ASCII Unicode spaces,
which differs only on non-ASCII text). -/
def isPySpace (c : Char) : Bool :=
  c = ' ' || c = '\t' || c = '\n' || c = '\r' || c = '\x0b' || c = '\x0c'

/-- Python `str.strip()` on the underlying character list. -/
def pyStripList (l : List Char) : List Char :=
  ((l.dropWhile isPySpace).reverse.dropWhile isPySpace).reverse

/-- Python `str.strip()`. -/
def pyStrip (s : String) : String := String.mk (pyStripList s.data)

/-- Python `preview[:5000].strip()`. -/
def pyTruncStrip (s : String) : String := pyStrip (String.mk (s.data.take 5000))

/-- Round a rational to the nearest integer, ties to even (the rounding of
Python float formatting). -/
def roundHalfEven (q : ℚ) : ℤ :=
  let f := ⌊q⌋
  if q - f < 1 / 2 then f
  else if q - f > 1 / 2 then f + 1
  else if f % 2 = 0 then f else f + 1

/-- Python `f"{x:.2f}"` on a rational confidence value. -/
def formatFix2 (q : ℚ) : String :=
  let n := roundHalfEven (q * 100)
  let a := n.natAbs
  (if n < 0 then "-" else "") ++ toString (a / 100) ++ "." ++
    (if a % 100 < 10 then "0" else "") ++ toString (a % 100)

/-! ### Regular expressions

A small backtracking matcher for the pattern constructs actually used in
`PII_PATTERNS` and the contextual heuristics: character classes, literal
characters, concatenation, alternation, bounded repetition, one-or-more
repetition of a character class, and the word-boundary assertion. -/

/-- ASCII word character (`\w` restricted to ASCII; the Python engine is
Unicode-aware, which differs only around non-ASCII text). -/
def isWordChar (c : Char) : Bool := c.isAlphanum || c = '_'

def isWordOpt : Option Char → Bool
  | some c => isWordChar c
  | none => false

/-- `\b`: exactly one of the two surrounding positions holds a word char. -/
def atBoundary (prev : Option Char) (next : Option Char) : Bool :=
  isWordOpt prev != isWordOpt next

inductive RE where
  | eps
  | cls (p : Char → Bool)
  | plusCls (p : Char → Bool)
  | cat (r₁ r₂ : RE)
  | alt (r₁ r₂ : RE)
  | wb

/-- All ways to consume one or more leading characters satisfying `p`,
returned as (last consumed character, rest). -/
def runPlus (p : Char → Bool) : List Char → List (Option Char × List Char)
  | [] => []
  | c :: s => if p c then (some c, s) :: runPlus p s else []

/-- Backtracking matcher: all ways to match `r` against a front segment of
`s`, given the character just before `s`; each result is the last consumed
character paired with the unconsumed rest. -/
def runRE : RE → Option Char → List Char → List (Option Char × List Char)
  | .eps, prev, s => [(prev, s)]
  | .cls _, _, [] => []
  | .cls p, _, c :: s => if p c then [(some c, s)] else []
  | .plusCls p, _, s => runPlus p s
  | .cat r₁ r₂, prev, s => (runRE r₁ prev s).flatMap (fun a => runRE r₂ a.1 a.2)
  | .alt r₁ r₂, prev, s => runRE r₁ prev s ++ runRE r₂ prev s
  | .wb, prev, s => if atBoundary prev s.head? then [(prev, s)] else []

def searchAux (r : RE) : Option Char → List Char → Bool
  | prev, [] => !(runRE r prev []).isEmpty
  | prev, c :: s => !(runRE r prev (c :: s)).isEmpty || searchAux r (some c) s

/-- `re.search(r, s)` as an existence test: does `r` match starting at some
position of `s`? -/
def reSearch (r : RE) (s : String) : Bool := searchAux r none s.data

/-- Case-sensitive literal character. -/
def chS (c : Char) : RE := .cls (fun d => d = c)

/-- Case-insensitive literal character (for patterns compiled with `re.I`). -/
def chI (c : Char) : RE := .cls (fun d => d.toLower = c.toLower)

def strS (w : String) : RE := w.data.foldr (fun c r => .cat (chS c) r) .eps

def strI (w : String) : RE := w.data.foldr (fun c r => .cat (chI c) r) .eps

def cats (l : List RE) : RE := l.foldr .cat .eps

def alts : List RE → RE
  | [] => .eps
  | [r] => r
  | r :: rs => .alt r (alts rs)

def opt (r : RE) : RE := .alt r .eps

/-- `r{n}`. -/
def rep (r : RE) : Nat → RE
  | 0 => .eps
  | n + 1 => .cat r (rep r n)

/-- `r{m,n}`. -/
def repRange (r : RE) (m n : Nat) : RE := .cat (rep r m) (rep (opt r) (n - m))

def digC : RE := .cls Char.isDigit

def alphaB (c : Char) : Bool := c.isAlpha

/-- `\b\d{3}-\d{2}-\d{4}\b` -/
def ssn_us_re : RE :=
  cats [.wb, rep digC 3, chS '-', rep digC 2, chS '-', rep digC 4, .wb]

/-- `\b(?:4[0-9]{12}(?:[0-9]{3})?|5[1-5][0-9]{14}|3[47][0-9]{13}|6(?:011|5[0-9]{2})[0-9]{12})\b` -/
def credit_card_re : RE :=
  cats [.wb,
    alts [
      cats [chS '4', rep digC 12, opt (rep digC 3)],
      cats [chS '5', .cls (fun c => decide ('1' ≤ c ∧ c ≤ '5')), rep digC 14],
      cats [chS '3', .cls (fun c => c = '4' || c = '7'), rep digC 13],
      cats [chS '6', alts [strS "011", cats [chS '5', rep digC 2]], rep digC 12]],
    .wb]

/-- `\b(?:\d{1,3}\.){3}\d{1,3}\b` -/
def ip_v4_re : RE :=
  cats [.wb, rep (cats [repRange digC 1 3, chS '.']) 3, repRange digC 1 3, .wb]

def emailLocalB (c : Char) : Bool :=
  c.isAlphanum || c = '.' || c = '_' || c = '%' || c = '+' || c = '-'

def emailDomB (c : Char) : Bool := c.isAlphanum || c = '.' || c = '-'

/-- `\b[A-Za-z0-9._%+-]+@[A-Za-z0-9.-]+\.[A-Za-z]{2,}\b` -/
def email_re : RE :=
  cats [.wb, .plusCls emailLocalB, chS '@', .plusCls emailDomB, chS '.',
    .cls alphaB, .plusCls alphaB, .wb]

/-- `[-.\s]` -/
def sepB (c : Char) : Bool := c = '-' || c = '.' || isPySpace c

/-- `\b(?:\+?\d{1,3}[-.\s]?)?(?:\(?\d{3}\)?[-.\s]?)?\d{3}[-.\s]?\d{4}\b` -/
def phone_re : RE :=
  cats [.wb,
    opt (cats [opt (chS '+'), repRange digC 1 3, opt (.cls sepB)]),
    opt (cats [opt (chS '('), rep digC 3, opt (chS ')'), opt (.cls sepB)]),
    rep digC 3, opt (.cls sepB), rep digC 4, .wb]

def slashDashB (c : Char) : Bool := c = '/' || c = '-'

/-- `\b(?:\d{1,2}[\/\-]\d{1,2}[\/\-]\d{2,4})\b` -/
def dob_re : RE :=
  cats [.wb, repRange digC 1 2, .cls slashDashB, repRange digC 1 2,
    .cls slashDashB, repRange digC 2 4, .wb]

/-- `\b(?:Acct|Account|Account Number|Routing|ABA)\b`, `re.I` -/
def routing_account_re : RE :=
  cats [.wb,
    alts [strI "Acct", strI "Account", strI "Account Number", strI "Routing", strI "ABA"],
    .wb]

/-- `\b(password|passwd|pwd|contraseña|clave)\b`, `re.I` -/
def password_label_re : RE :=
  cats [.wb,
    alts [strI "password", strI "passwd", strI "pwd", strI "contraseña", strI "clave"],
    .wb]

/-- `\b(tarjeta|numero de tarjeta|número de tarjeta)\b`, `re.I` -/
def spanish_cc_label_re : RE :=
  cats [.wb,
    alts [strI "tarjeta", strI "numero de tarjeta", strI "número de tarjeta"],
    .wb]

/-- `\b(NSS|dni|cedula|rut)\b`, `re.I` -/
def spanish_ssn_label_re : RE :=
  cats [.wb, alts [strI "NSS", strI "dni", strI "cedula", strI "rut"], .wb]

/-- `\b(?:S\d{5,9}|ID[:\s]?\d{5,9})\b`, `re.I` -/
def student_id_re : RE :=
  cats [.wb,
    alts [
      cats [chI 'S', repRange digC 5 9],
      cats [chI 'I', chI 'D', opt (.cls (fun c => c = ':' || isPySpace c)), repRange digC 5 9]],
    .wb]

/-- The static PII pattern registry, in source (insertion) order. -/
def PII_PATTERNS : List (String × RE) := [
  ("ssn_us", ssn_us_re),
  ("credit_card", credit_card_re),
  ("ip_v4", ip_v4_re),
  ("email", email_re),
  ("phone", phone_re),
  ("dob", dob_re),
  ("routing_account", routing_account_re),
  ("password_label", password_label_re),
  ("spanish_cc_label", spanish_cc_label_re),
  ("spanish_ssn_label", spanish_ssn_label_re),
  ("student_id", student_id_re)]

/-- `find_pii`: every registry category with at least one match in the text,
in registry order. -/
def find_pii (preview_text : String) : List String :=
  (PII_PATTERNS.filter (fun kp => reSearch kp.2 preview_text)).map Prod.fst

def upperB (c : Char) : Bool := decide ('A' ≤ c ∧ c ≤ 'Z')

def lowerB (c : Char) : Bool := decide ('a' ≤ c ∧ c ≤ 'z')

/-- `\b[A-Z][a-z]+ [A-Z][a-z]+\b` (case-sensitive) -/
def person_name_re : RE :=
  cats [.wb, .cls upperB, .plusCls lowerB, chS ' ', .cls upperB, .plusCls lowerB, .wb]

def addrWordB (c : Char) : Bool := c.isAlphanum || isPySpace c

/-- `\b\d{1,5}\s[A-Za-z0-9\s]+(Street|St|Ave|Avenue|Blvd|Road|Rd|Lane|Ln)\b` -/
def address_re : RE :=
  cats [.wb, repRange digC 1 5, .cls isPySpace, .plusCls addrWordB,
    alts [strS "Street", strS "St", strS "Ave", strS "Avenue", strS "Blvd",
      strS "Road", strS "Rd", strS "Lane", strS "Ln"],
    .wb]

/-- `\b\d{9,18}\b` -/
def bank_account_re : RE := cats [.wb, repRange digC 9 18, .wb]

/-- The contextual heuristics evaluated only for text/PDF content, in
source order. -/
def personal_info_patterns : List (String × RE) := [
  ("person_name", person_name_re),
  ("address", address_re),
  ("bank_account", bank_account_re)]

/-! ### Environment oracles

One `FileEnv` captures everything the outside world supplies for one path:
the Magika classification outcome, the `mimetypes` extension guess, the
file bytes on disk, the `chardet`/codec behavior, the `langdetect` and
`langcodes` behavior, the file size, and the formatted wall-clock time. -/

/-- The `output` object of `magika.identify_path`, as the code reads it via
`getattr` (each attribute may be absent). -/
structure MagikaOutput where
  mime_type : Option String
  category : Option String
  confidence : Option ℚ

structure FileEnv where
  /-- `Magika().identify_path(path).output`, or the raised exception's text. -/
  magika : Except String MagikaOutput
  /-- `mimetypes.guess_type(path)[0]`. -/
  guess_type : Option String
  /-- The file's bytes, or `none` when opening/reading raises. -/
  contents : Option (List Nat)
  /-- `chardet.detect(raw).get("encoding")`. -/
  chardet_detect : List Nat → Option String
  /-- `raw.decode(enc, errors="ignore")`; `error` models an unknown codec. -/
  decode : String → List Nat → Except Unit String
  /-- `langdetect.detect_langs(text)` as the candidate codes, best first;
  `error` models a raised `LangDetectException`. -/
  detect_langs : String → Except Unit (List String)
  /-- `Language.get(code).display_name()`; `error` models a raise. -/
  display_name : String → Except Unit String
  /-- `os.path.getsize(path)`, or the raised exception's text. -/
  getsize : Except String Nat
  /-- `datetime.now().strftime("%Y-%m-%d %H:%M:%S")` at analysis start. -/
  now : String

/-! ### Pipeline functions -/

/-- `detect_language`: best-guess language label for a text preview. -/
def detect_language (env : FileEnv) (text : String) : String :=
  match env.detect_langs text with
  | .error _ => "Unknown"
  | .ok [] => "Unknown"
  | .ok (code :: _) =>
    match env.display_name code with
    | .error _ => "Unknown"
    | .ok name => name ++ " (" ++ code ++ ")"

/-- `safe_read`: read at most `max_bytes` bytes of the file held in `env`,
detect an encoding and decode; any failure yields the unreadable sentinel. -/
def safe_read (env : FileEnv) (max_bytes : Nat := 20000) : String × String :=
  match env.contents with
  | none => ("[Unreadable or binary data]", "Unknown")
  | some bytes =>
    let raw := bytes.take max_bytes
    let enc := pyOrStr (env.chardet_detect raw) "utf-8"
    match env.decode enc raw with
    | .ok text => (text, enc)
    | .error _ => ("[Unreadable or binary data]", "Unknown")

/-- The mime string: `getattr(output, "mime_type", None) or
mimetypes.guess_type(file_path)[0] or "application/octet-stream"`. -/
def mimeOf (output : MagikaOutput) (guess : Option String) : String :=
  pyOrStr output.mime_type (pyOrStr guess "application/octet-stream")

/-- The record returned when the Magika call raises. -/
def magika_failure_record (file_path e timestamp : String) : RecD := [
  ("file_name", .s (basename file_path)),
  ("mime_type", .s "error"),
  ("ai_category", .s "Processing Failed"),
  ("confidence", .s "0%"),
  ("encoding", .s "N/A"),
  ("language", .s "Unknown"),
  ("flagged", .b false),
  ("flag_reasons", .ls ["Magika error: " ++ e]),
  ("preview", .s "[Error analyzing file]"),
  ("uploaded", .s timestamp)]

/-- The analysis state produced by the text-eligibility branch. -/
structure ScanOut where
  preview : String
  encoding : String
  language : String
  flagged : Bool
  flag_reasons : List String
deriving DecidableEq, Repr

/-- The conditional text branch of `analyze_single_file`: if the mime or
the extension marks the file text-eligible, read, language-detect and
PII-scan it; otherwise keep the skip sentinels.  `list(set(...))` is
modelled by `List.dedup` (the interpreter's set iteration order is
unspecified; membership is the faithful content). -/
def scanFor (env : FileEnv) (mime ext : String) : ScanOut :=
  if mime = "application/pdf" ∨ mime = "text/plain" ∨ ext = ".pdf" ∨ ext = ".txt" then
    let pr := safe_read env
    let language := detect_language env pr.1
    let pii_matches := find_pii pr.1 ++
      (personal_info_patterns.filter (fun kp => reSearch kp.2 pr.1)).map Prod.fst
    if pii_matches ≠ [] then ⟨pr.1, pr.2, language, true, pii_matches.dedup⟩
    else ⟨pr.1, pr.2, language, false, []⟩
  else ⟨"[Skipped: non-text or non-pdf file]", "N/A", "N/A", false, []⟩

/-- The record built at the end of the successful-classification path. -/
def success_record (file_path mime category : String) (confidence : ℚ)
    (ext : String) (sz : Nat) (timestamp : String) (scan : ScanOut) : RecD := [
  ("file_name", .s (basename file_path)),
  ("mime_type", .s mime),
  ("ai_category", .s category),
  ("file_type", .s (pyOrStr (some (pyLstripDot ext)) "unknown")),
  ("encoding", .s scan.encoding),
  ("language", .s scan.language),
  ("file_size", .s (toString sz ++ " bytes")),
  ("confidence", .s (formatFix2 confidence ++ "%")),
  ("uploaded", .s timestamp),
  ("preview", .s (pyTruncStrip scan.preview)),
  ("flagged", .b scan.flagged),
  ("flag_reasons", .ls scan.flag_reasons)]

/-- `analyze_single_file`: classify one file, scan text-eligible content
for PII, and build the result record.  `Except.error` is the one uncaught
exception path: `os.path.getsize` raising during record construction. -/
def analyze_single_file (env : FileEnv) (file_path : String) : Except String RecD :=
  let timestamp := env.now
  match env.magika with
  | .error e => .ok (magika_failure_record file_path e timestamp)
  | .ok output =>
    let mime := mimeOf output env.guess_type
    let category := pyOrStr output.category "Unknown"
    let confidence := output.confidence.getD (99 / 100) * 100
    let ext := pyToLower (splitextExt file_path)
    let scan := scanFor env mime ext
    match env.getsize with
    | .error e => .error e
    | .ok sz => .ok (success_record file_path mime category confidence ext sz timestamp scan)

/-- The record the orchestrator synthesizes when `future.result()` raises. -/
def worker_error_record (path e timestamp : String) : RecD := [
  ("file_name", .s (basename path)),
  ("mime_type", .s "error"),
  ("ai_category", .s "Processing Failed"),
  ("confidence", .s "0%"),
  ("encoding", .s "N/A"),
  ("language", .s "Unknown"),
  ("flagged", .b false),
  ("flag_reasons", .ls ["Worker error: " ++ e]),
  ("preview", .s "[Error analyzing file]"),
  ("uploaded", .s timestamp)]

/-- `classify_files_batch`: one future per input path; `completed` is the
`as_completed` order (a permutation of the input paths, stated as a
hypothesis where it matters), `outcome path` is what `future.result()`
does for that path (the worker's record, or the exception it raises —
process-pool failures included), and `clock path` is the timestamp taken
when synthesizing that path's failure record. -/
def classify_files_batch (outcome : String → Except String RecD)
    (clock : String → String) (completed : List String) : List RecD :=
  completed.map (fun path =>
    match outcome path with
    | .ok r => r
    | .error e => worker_error_record path e (clock path))

/-! ### Environment variations and concrete instances -/

/-- `env` with only the wall-clock changed. -/
def withNow (env : FileEnv) (t : String) : FileEnv :=
  ⟨env.magika, env.guess_type, env.contents, env.chardet_detect, env.decode,
   env.detect_langs, env.display_name, env.getsize, t⟩

/-- `env` with only the on-disk bytes changed. -/
def withContents (env : FileEnv) (c : Option (List Nat)) : FileEnv :=
  ⟨env.magika, env.guess_type, c, env.chardet_detect, env.decode,
   env.detect_langs, env.display_name, env.getsize, env.now⟩

def outText : MagikaOutput := ⟨some "text/plain", some "text", some (1 / 2)⟩

def outImage : MagikaOutput := ⟨some "image/png", some "image", some (1 / 2)⟩

/-- A healthy environment for a small readable text file. -/
def envTxtOk : FileEnv :=
  ⟨.ok outText, none, some [104, 105], fun _ => some "ascii", fun _ _ => .ok "hi",
   fun _ => .ok ["en"], fun _ => .ok "English", .ok 2, "2025-01-01 00:00:00"⟩

/-- The same file, but the Magika call raises. -/
def envMagikaErr : FileEnv :=
  ⟨.error "boom", none, some [104, 105], fun _ => some "ascii", fun _ _ => .ok "hi",
   fun _ => .ok ["en"], fun _ => .ok "English", .ok 2, "2025-01-01 00:00:00"⟩

/-- An image file: classification succeeds, content is not text-eligible. -/
def envImage : FileEnv :=
  ⟨.ok outImage, none, some [1, 2, 3], fun _ => some "ascii", fun _ _ => .ok "x",
   fun _ => .ok ["en"], fun _ => .ok "English", .ok 3, "2025-01-01 00:00:00"⟩

/-- A text file whose decoded content holds an SSN and an email address. -/
def envPII : FileEnv :=
  ⟨.ok outText, none, some [77, 121], fun _ => some "ascii",
   fun _ _ => .ok "My SSN is 123-45-6789 and email is a@b.com",
   fun _ => .ok ["en"], fun _ => .ok "English", .ok 43, "2025-01-01 00:00:00"⟩

/-- A text file whose bytes cannot be read (for example no permission). -/
def envUnreadable : FileEnv :=
  ⟨.ok outText, none, none, fun _ => some "ascii", fun _ _ => .ok "hi",
   fun _ => .ok ["en"], fun _ => .ok "English", .ok 2, "2025-01-01 00:00:00"⟩

/-! ### Helper lemmas -/

theorem getF_success_flagged (fp m c : String) (cf : ℚ) (e : String) (sz : Nat)
    (t : String) (scan : ScanOut) :
    getF (success_record fp m c cf e sz t scan) "flagged" = some (.b scan.flagged) := rfl

theorem getF_success_reasons (fp m c : String) (cf : ℚ) (e : String) (sz : Nat)
    (t : String) (scan : ScanOut) :
    getF (success_record fp m c cf e sz t scan) "flag_reasons" =
      some (.ls scan.flag_reasons) := rfl

theorem getF_success_preview (fp m c : String) (cf : ℚ) (e : String) (sz : Nat)
    (t : String) (scan : ScanOut) :
    getF (success_record fp m c cf e sz t scan) "preview" =
      some (.s (pyTruncStrip scan.preview)) := rfl

theorem getF_success_encoding (fp m c : String) (cf : ℚ) (e : String) (sz : Nat)
    (t : String) (scan : ScanOut) :
    getF (success_record fp m c cf e sz t scan) "encoding" = some (.s scan.encoding) := rfl

theorem getF_success_language (fp m c : String) (cf : ℚ) (e : String) (sz : Nat)
    (t : String) (scan : ScanOut) :
    getF (success_record fp m c cf e sz t scan) "language" = some (.s scan.language) := rfl

/-- On the successful-classification path the analyzer returns the success
record built from `scanFor`. -/
theorem analyze_ok (env : FileEnv) (file_path : String) (output : MagikaOutput)
    (sz : Nat) (hm : env.magika = .ok output) (hs : env.getsize = .ok sz) :
    analyze_single_file env file_path = .ok (success_record file_path
      (mimeOf output env.guess_type) (pyOrStr output.category "Unknown")
      (output.confidence.getD (99 / 100) * 100) (pyToLower (splitextExt file_path)) sz env.now
      (scanFor env (mimeOf output env.guess_type) (pyToLower (splitextExt file_path)))) := by
  unfold analyze_single_file
  rw [hm, hs]

/-- The shape of every record the analyzer can return without raising. -/
theorem analyze_ok_cases (env : FileEnv) (file_path : String) (r : RecD)
    (h : analyze_single_file env file_path = .ok r) :
    (∃ e, env.magika = .error e ∧ r = magika_failure_record file_path e env.now) ∨
    (∃ output sz, env.magika = .ok output ∧ env.getsize = .ok sz ∧
      r = success_record file_path (mimeOf output env.guess_type)
        (pyOrStr output.category "Unknown") (output.confidence.getD (99 / 100) * 100)
        (pyToLower (splitextExt file_path)) sz env.now
        (scanFor env (mimeOf output env.guess_type) (pyToLower (splitextExt file_path)))) := by
  cases hm : env.magika with
  | error e =>
    left
    refine ⟨e, rfl, ?_⟩
    unfold analyze_single_file at h
    rw [hm] at h
    exact (Except.ok.inj h).symm
  | ok output =>
    right
    cases hs : env.getsize with
    | error e =>
      unfold analyze_single_file at h
      rw [hm, hs] at h
      exact absurd h (by simp)
    | ok sz =>
      refine ⟨output, sz, rfl, rfl, ?_⟩
      rw [analyze_ok env file_path output sz hm hs] at h
      exact (Except.ok.inj h).symm

/-! ### C1: one result per input path -/

/-- C1: for every input list of file paths, `classify_files_batch` returns
exactly one record per input path — the result list's length equals the
number of paths — whatever the per-path outcomes are. -/
theorem c1_batch_cardinality (outcome : String → Except String RecD)
    (clock : String → String) (file_paths completed : List String)
    (h : completed.Perm file_paths) :
    (classify_files_batch outcome clock completed).length = file_paths.length := by
  simpa [classify_files_batch] using h.length_eq

/-- C1 witness: a concrete two-path batch in which every worker crashes
still yields two records. -/
theorem c1_batch_cardinality_witness :
    (classify_files_batch (fun _ => .error "crash") (fun _ => "t")
      ["b.png", "a.txt"]).length = (["a.txt", "b.png"] : List String).length :=
  c1_batch_cardinality (fun _ => .error "crash") (fun _ => "t")
    ["a.txt", "b.png"] ["b.png", "a.txt"] (by decide)

/-! ### C3: classifier failure short-circuits -/

/-- C3: when the Magika call raises, `analyze_single_file` returns (rather
than propagates) the failure record — which depends on nothing but the
path, the error text and the timestamp, so no reading, language detection
or PII scanning can influence it — with `mime_type = "error"`,
`ai_category = "Processing Failed"` and `confidence = "0%"`. -/
theorem c3_classifier_failure (env : FileEnv) (file_path e : String)
    (h : env.magika = .error e) :
    analyze_single_file env file_path = .ok (magika_failure_record file_path e env.now) ∧
    getF (magika_failure_record file_path e env.now) "mime_type" = some (.s "error") ∧
    getF (magika_failure_record file_path e env.now) "ai_category" =
      some (.s "Processing Failed") ∧
    getF (magika_failure_record file_path e env.now) "confidence" = some (.s "0%") := by
  refine ⟨?_, rfl, rfl, rfl⟩
  unfold analyze_single_file
  rw [h]

/-- C3 witness. -/
theorem c3_classifier_failure_witness :
    analyze_single_file envMagikaErr "a.txt" =
      .ok (magika_failure_record "a.txt" "boom" envMagikaErr.now) ∧
    getF (magika_failure_record "a.txt" "boom" envMagikaErr.now) "mime_type" =
      some (.s "error") ∧
    getF (magika_failure_record "a.txt" "boom" envMagikaErr.now) "ai_category" =
      some (.s "Processing Failed") ∧
    getF (magika_failure_record "a.txt" "boom" envMagikaErr.now) "confidence" =
      some (.s "0%") :=
  c3_classifier_failure envMagikaErr "a.txt" "boom" rfl

/-! ### C5: worker failure isolation -/

/-- C5: when a path's future raises, the orchestrator substitutes a record
whose reason text is `"Worker error: " ++` the message, while every other
path's successful record is still collected and the batch keeps one record
per completed path. -/
theorem c5_worker_failure_isolation (outcome : String → Except String RecD)
    (clock : String → String) (completed : List String) (p e : String)
    (hp : p ∈ completed) (he : outcome p = .error e) :
    worker_error_record p e (clock p) ∈ classify_files_batch outcome clock completed ∧
    getF (worker_error_record p e (clock p)) "flag_reasons" =
      some (.ls ["Worker error: " ++ e]) ∧
    (∀ q r, q ∈ completed → outcome q = .ok r →
      r ∈ classify_files_batch outcome clock completed) ∧
    (classify_files_batch outcome clock completed).length = completed.length := by
  refine ⟨List.mem_map.mpr ⟨p, hp, by rw [he]⟩, rfl, ?_, by simp [classify_files_batch]⟩
  intro q r hq hr
  exact List.mem_map.mpr ⟨q, hq, by rw [hr]⟩

/-- The worker behavior used by the C5 witness: one crashing path among
healthy ones. -/
def outcomeW : String → Except String RecD := fun p =>
  if p = "bad.txt" then .error "crash" else .ok [("file_name", .s p)]

/-- C5 witness. -/
theorem c5_worker_failure_isolation_witness :
    worker_error_record "bad.txt" "crash" "t" ∈
      classify_files_batch outcomeW (fun _ => "t") ["good.txt", "bad.txt"] ∧
    getF (worker_error_record "bad.txt" "crash" "t") "flag_reasons" =
      some (.ls ["Worker error: " ++ "crash"]) ∧
    (∀ q r, q ∈ ["good.txt", "bad.txt"] → outcomeW q = .ok r →
      r ∈ classify_files_batch outcomeW (fun _ => "t") ["good.txt", "bad.txt"]) ∧
    (classify_files_batch outcomeW (fun _ => "t") ["good.txt", "bad.txt"]).length =
      (["good.txt", "bad.txt"] : List String).length :=
  c5_worker_failure_isolation outcomeW (fun _ => "t") ["good.txt", "bad.txt"]
    "bad.txt" "crash" (by decide) rfl

/-! ### C2: flagged iff flag_reasons non-empty -/

/-- On the text branch the flag is set exactly when some pattern matched. -/
theorem scanFor_flagged_iff (env : FileEnv) (mime ext : String) :
    (scanFor env mime ext).flagged = true ↔ (scanFor env mime ext).flag_reasons ≠ [] := by
  unfold scanFor
  split
  · dsimp only
    split
    · next h => simp [List.dedup_eq_nil, h]
    · next h => simp at h; simp [h]
  · simp

/-- C2 counterexample: the record produced when the classifier raises has
`flagged = false` together with a non-empty `flag_reasons`, so the claimed
equivalence fails for failure fallback records. -/
theorem c2_counterexample :
    ∃ r l, analyze_single_file envMagikaErr "a.txt" = .ok r ∧
      getF r "flagged" = some (.b false) ∧
      getF r "flag_reasons" = some (.ls l) ∧ l ≠ [] :=
  ⟨magika_failure_record "a.txt" "boom" "2025-01-01 00:00:00",
   ["Magika error: boom"], rfl, rfl, rfl, by decide⟩

/-- C2 (amended): the equivalence `flagged = (flag_reasons ≠ [])` holds for
every record of the successful-classification path; the classifier-failure
and worker-failure fallback records instead carry `flagged = false` with
exactly one reason string (the error text), so the equivalence does not
extend to them. -/
theorem c2_flagged_iff_reasons_amended :
    (∀ (env : FileEnv) (file_path : String) (output : MagikaOutput) (r : RecD),
        env.magika = .ok output → analyze_single_file env file_path = .ok r →
        ∃ b l, getF r "flagged" = some (.b b) ∧ getF r "flag_reasons" = some (.ls l) ∧
          (b = true ↔ l ≠ [])) ∧
    (∀ (env : FileEnv) (file_path e : String) (r : RecD),
        env.magika = .error e → analyze_single_file env file_path = .ok r →
        getF r "flagged" = some (.b false) ∧
        getF r "flag_reasons" = some (.ls ["Magika error: " ++ e])) ∧
    (∀ path e t, getF (worker_error_record path e t) "flagged" = some (.b false) ∧
        getF (worker_error_record path e t) "flag_reasons" =
          some (.ls ["Worker error: " ++ e])) := by
  refine ⟨?_, ?_, fun path e t => ⟨rfl, rfl⟩⟩
  · intro env file_path output r hm hr
    rcases analyze_ok_cases env file_path r hr with ⟨e, he, _⟩ | ⟨output2, sz, _, _, hrec⟩
    · rw [hm] at he; exact absurd he (by simp)
    · subst hrec
      exact ⟨_, _, getF_success_flagged .., getF_success_reasons ..,
        scanFor_flagged_iff ..⟩
  · intro env file_path e r hm hr
    rcases analyze_ok_cases env file_path r hr with ⟨e2, he, hrec⟩ | ⟨output, sz, ho, _, _⟩
    · rw [hm] at he
      obtain rfl : e = e2 := by exact (Except.error.inj he)
      subst hrec
      exact ⟨rfl, rfl⟩
    · rw [hm] at ho; exact absurd ho (by simp)

/-- C2 witness: the amended equivalence applied to a concrete healthy
text-file analysis. -/
theorem c2_flagged_iff_reasons_witness :
    ∃ r, analyze_single_file envTxtOk "a.txt" = .ok r ∧
      ∃ b l, getF r "flagged" = some (.b b) ∧ getF r "flag_reasons" = some (.ls l) ∧
        (b = true ↔ l ≠ []) :=
  ⟨_, rfl, c2_flagged_iff_reasons_amended.1 envTxtOk "a.txt" outText _ rfl rfl⟩

/-! ### C6: failure records and the success schema -/

/-- C6 counterexample: a classifier-failure record lacks the `file_type`
and `file_size` fields that every successfully analyzed file's record
carries, so the two schemas are not the same set of fields. -/
theorem c6_counterexample :
    ∃ r r2, analyze_single_file envMagikaErr "a.txt" = .ok r ∧
      analyze_single_file envTxtOk "a.txt" = .ok r2 ∧
      "file_type" ∉ keysOf r ∧ "file_size" ∉ keysOf r ∧
      "file_type" ∈ keysOf r2 ∧ "file_size" ∈ keysOf r2 := by
  refine ⟨_, _, rfl, rfl, by decide, by decide, by decide, by decide⟩

/-- C6 (amended): both failure records (classifier failure and worker
failure) share one fixed 10-field schema, and a successfully analyzed
file's record has the fixed 12-field schema; the failure schema equals the
success schema minus `file_type` and `file_size` (as a set of fields). -/
theorem c6_schema_amended :
    (∀ path e t,
      keysOf (magika_failure_record path e t) =
        ["file_name", "mime_type", "ai_category", "confidence", "encoding", "language",
         "flagged", "flag_reasons", "preview", "uploaded"] ∧
      keysOf (worker_error_record path e t) =
        ["file_name", "mime_type", "ai_category", "confidence", "encoding", "language",
         "flagged", "flag_reasons", "preview", "uploaded"]) ∧
    (∀ (env : FileEnv) (file_path : String) (output : MagikaOutput) (r : RecD),
        env.magika = .ok output → analyze_single_file env file_path = .ok r →
        keysOf r = ["file_name", "mime_type", "ai_category", "file_type", "encoding",
          "language", "file_size", "confidence", "uploaded", "preview", "flagged",
          "flag_reasons"]) ∧
    (["file_name", "mime_type", "ai_category", "confidence", "encoding", "language",
      "flagged", "flag_reasons", "preview", "uploaded"] : List String).Perm
      ((["file_name", "mime_type", "ai_category", "file_type", "encoding", "language",
         "file_size", "confidence", "uploaded", "preview", "flagged", "flag_reasons"]
        : List String).filter (fun k => !(k == "file_type" || k == "file_size"))) := by
  refine ⟨fun path e t => ⟨rfl, rfl⟩, ?_, by decide⟩
  intro env file_path output r hm hr
  rcases analyze_ok_cases env file_path r hr with ⟨e, he, _⟩ | ⟨output2, sz, _, _, hrec⟩
  · rw [hm] at he; exact absurd he (by simp)
  · subst hrec; rfl

/-- C6 witness: the amended schema facts at a concrete healthy analysis. -/
theorem c6_schema_witness :
    ∃ r, analyze_single_file envTxtOk "a.txt" = .ok r ∧
      keysOf r = ["file_name", "mime_type", "ai_category", "file_type", "encoding",
        "language", "file_size", "confidence", "uploaded", "preview", "flagged",
        "flag_reasons"] :=
  ⟨_, rfl, c6_schema_amended.2.1 envTxtOk "a.txt" outText _ rfl rfl⟩

/-! ### C4: text eligibility and the skip path -/

/-- C4: when classification succeeds and neither the mime (`text/plain` or
`application/pdf`) nor the lowercased extension (`.txt` or `.pdf`) marks
the file text-eligible, the record carries the skip sentinel preview,
`encoding = language = "N/A"`, `flagged = false` and no reasons, and the
result is independent of the reading/detection oracles (no PII scan). -/
theorem c4_skip_non_text (env : FileEnv) (file_path : String) (output : MagikaOutput)
    (sz : Nat) (hm : env.magika = .ok output) (hs : env.getsize = .ok sz)
    (hne : ¬(mimeOf output env.guess_type = "application/pdf" ∨
      mimeOf output env.guess_type = "text/plain" ∨
      pyToLower (splitextExt file_path) = ".pdf" ∨ pyToLower (splitextExt file_path) = ".txt")) :
    ∃ r, analyze_single_file env file_path = .ok r ∧
      getF r "preview" = some (.s "[Skipped: non-text or non-pdf file]") ∧
      getF r "encoding" = some (.s "N/A") ∧
      getF r "language" = some (.s "N/A") ∧
      getF r "flagged" = some (.b false) ∧
      getF r "flag_reasons" = some (.ls []) ∧
      ∀ env2 : FileEnv, env2.magika = env.magika → env2.guess_type = env.guess_type →
        env2.getsize = env.getsize → env2.now = env.now →
        analyze_single_file env2 file_path = analyze_single_file env file_path := by
  have hscan : ∀ env3 : FileEnv, scanFor env3 (mimeOf output env.guess_type)
      (pyToLower (splitextExt file_path)) =
      ⟨"[Skipped: non-text or non-pdf file]", "N/A", "N/A", false, []⟩ := by
    intro env3
    unfold scanFor
    rw [if_neg hne]
  refine ⟨_, analyze_ok env file_path output sz hm hs, ?_, ?_, ?_, ?_, ?_, ?_⟩
  · rw [getF_success_preview, hscan]
    decide
  · rw [getF_success_encoding, hscan]
  · rw [getF_success_language, hscan]
  · rw [getF_success_flagged, hscan]
  · rw [getF_success_reasons, hscan]
  · intro env2 h1 h2 h3 h4
    rw [analyze_ok env2 file_path output sz (h1.trans hm) (h3.trans hs),
      analyze_ok env file_path output sz hm hs, h2, h4, hscan env2, hscan env]

/-- C4 witness: a concrete image file takes the skip path. -/
theorem c4_skip_non_text_witness :
    ∃ r, analyze_single_file envImage "cat.png" = .ok r ∧
      getF r "preview" = some (.s "[Skipped: non-text or non-pdf file]") ∧
      getF r "encoding" = some (.s "N/A") ∧
      getF r "language" = some (.s "N/A") ∧
      getF r "flagged" = some (.b false) ∧
      getF r "flag_reasons" = some (.ls []) ∧
      ∀ env2 : FileEnv, env2.magika = envImage.magika → env2.guess_type = envImage.guess_type →
        env2.getsize = envImage.getsize → env2.now = envImage.now →
        analyze_single_file env2 "cat.png" = analyze_single_file envImage "cat.png" :=
  c4_skip_non_text envImage "cat.png" outImage 3 rfl rfl (by decide)

/-! ### C7: concrete PII detection -/

/-- C7: a `.txt` file whose classification succeeds and whose readable
content is `"My SSN is 123-45-6789 and email is a@b.com"` is flagged, with
both `ssn_us` and `email` among the flag reasons. -/
theorem c7_pii_detection (env : FileEnv) (file_path : String) (output : MagikaOutput)
    (sz : Nat) (hm : env.magika = .ok output) (hs : env.getsize = .ok sz)
    (hext : pyToLower (splitextExt file_path) = ".txt")
    (hread : (safe_read env).1 = "My SSN is 123-45-6789 and email is a@b.com") :
    ∃ r l, analyze_single_file env file_path = .ok r ∧
      getF r "flagged" = some (.b true) ∧
      getF r "flag_reasons" = some (.ls l) ∧ "ssn_us" ∈ l ∧ "email" ∈ l := by
  have hscan : scanFor env (mimeOf output env.guess_type) (pyToLower (splitextExt file_path)) =
      ⟨"My SSN is 123-45-6789 and email is a@b.com", (safe_read env).2,
        detect_language env "My SSN is 123-45-6789 and email is a@b.com", true,
        ["ssn_us", "email"]⟩ := by
    unfold scanFor
    rw [if_pos (Or.inr (Or.inr (Or.inr hext)))]
    dsimp only
    rw [hread]
    rw [show find_pii "My SSN is 123-45-6789 and email is a@b.com" ++
        (personal_info_patterns.filter (fun kp =>
          reSearch kp.2 "My SSN is 123-45-6789 and email is a@b.com")).map Prod.fst
        = ["ssn_us", "email"] from by decide]
    rw [if_pos (by decide : (["ssn_us", "email"] : List String) ≠ [])]
    rw [show (["ssn_us", "email"] : List String).dedup = ["ssn_us", "email"] from by decide]
  refine ⟨_, ["ssn_us", "email"], analyze_ok env file_path output sz hm hs,
    ?_, ?_, by decide, by decide⟩
  · rw [getF_success_flagged, hscan]
  · rw [getF_success_reasons, hscan]

/-- C7 witness: a concrete environment whose decoded text is the PII line. -/
theorem c7_pii_detection_witness :
    ∃ r l, analyze_single_file envPII "notes.txt" = .ok r ∧
      getF r "flagged" = some (.b true) ∧
      getF r "flag_reasons" = some (.ls l) ∧ "ssn_us" ∈ l ∧ "email" ∈ l :=
  c7_pii_detection envPII "notes.txt" outText 43 rfl rfl (by decide) rfl

/-! ### C8: the bounded reader -/

/-- C8: `safe_read` uses at most the first `max_bytes` bytes of the file
(its result is unchanged when the bytes are truncated to that prefix, and
the prefix it reads has length at most `max_bytes`); on any I/O failure it
returns the unreadable sentinel with encoding `"Unknown"` instead of
raising; hence a text-eligible but unreadable file's record carries the
unreadable sentinel as preview and encoding `"Unknown"`. -/
theorem c8_bounded_reader :
    (∀ (env : FileEnv) (bytes : List Nat) (mb : Nat), env.contents = some bytes →
        safe_read env mb = safe_read (withContents env (some (bytes.take mb))) mb ∧
        (bytes.take mb).length ≤ mb) ∧
    (∀ (env : FileEnv) (mb : Nat), env.contents = none →
        safe_read env mb = ("[Unreadable or binary data]", "Unknown")) ∧
    (∀ (env : FileEnv) (file_path : String) (output : MagikaOutput) (sz : Nat),
        env.magika = .ok output → env.getsize = .ok sz → env.contents = none →
        (mimeOf output env.guess_type = "application/pdf" ∨
         mimeOf output env.guess_type = "text/plain" ∨
         pyToLower (splitextExt file_path) = ".pdf" ∨
         pyToLower (splitextExt file_path) = ".txt") →
        ∃ r, analyze_single_file env file_path = .ok r ∧
          getF r "preview" = some (.s "[Unreadable or binary data]") ∧
          getF r "encoding" = some (.s "Unknown")) := by
  refine ⟨?_, ?_, ?_⟩
  · intro env bytes mb h
    constructor
    · simp [safe_read, withContents, h, List.take_take]
    · rw [List.length_take]
      exact inf_le_left
  · intro env mb h
    unfold safe_read
    rw [h]
  · intro env file_path output sz hm hs hc hel
    have hsr : safe_read env = ("[Unreadable or binary data]", "Unknown") := by
      unfold safe_read
      rw [hc]
    have hscan : scanFor env (mimeOf output env.guess_type)
        (pyToLower (splitextExt file_path)) =
        ⟨"[Unreadable or binary data]", "Unknown",
          detect_language env "[Unreadable or binary data]", false, []⟩ := by
      unfold scanFor
      rw [if_pos hel]
      dsimp only
      rw [hsr]
      dsimp only
      rw [show find_pii "[Unreadable or binary data]" ++
          (personal_info_patterns.filter (fun kp =>
            reSearch kp.2 "[Unreadable or binary data]")).map Prod.fst
          = [] from by decide]
      rw [if_neg (by simp)]
    refine ⟨_, analyze_ok env file_path output sz hm hs, ?_, ?_⟩
    · rw [getF_success_preview, hscan]
      dsimp only
      decide
    · rw [getF_success_encoding, hscan]

/-- C8 witness: all three parts at concrete inputs. -/
theorem c8_bounded_reader_witness :
    (safe_read envTxtOk 1 = safe_read (withContents envTxtOk (some (([104, 105] : List Nat).take 1))) 1 ∧
      (([104, 105] : List Nat).take 1).length ≤ 1) ∧
    safe_read envUnreadable 20000 = ("[Unreadable or binary data]", "Unknown") ∧
    (∃ r, analyze_single_file envUnreadable "notes.txt" = .ok r ∧
      getF r "preview" = some (.s "[Unreadable or binary data]") ∧
      getF r "encoding" = some (.s "Unknown")) :=
  ⟨c8_bounded_reader.1 envTxtOk [104, 105] 1 rfl,
   c8_bounded_reader.2.1 envUnreadable 20000 rfl,
   c8_bounded_reader.2.2 envUnreadable "notes.txt" outText 2 rfl rfl rfl (by decide)⟩

/-! ### C9: preview bounds -/

theorem dropWhile_head_false (p : Char → Bool) (l : List Char) :
    ∀ c, (l.dropWhile p).head? = some c → p c = false := by
  induction l with
  | nil =>
    intro c h
    simp [List.dropWhile] at h
  | cons a l ih =>
    intro c h
    rw [List.dropWhile_cons] at h
    by_cases hpa : p a = true
    · rw [if_pos hpa] at h
      exact ih c h
    · rw [if_neg hpa] at h
      obtain rfl : a = c := by simpa using h
      simpa using hpa

theorem getLast_dropWhile (p : Char → Bool) (l : List Char) :
    l.dropWhile p = [] ∨ (l.dropWhile p).getLast? = l.getLast? := by
  induction l with
  | nil => exact Or.inl rfl
  | cons a l ih =>
    rw [List.dropWhile_cons]
    by_cases hpa : p a = true
    · rw [if_pos hpa]
      rcases ih with h | h
      · exact Or.inl h
      · by_cases hl : l.dropWhile p = []
        · exact Or.inl hl
        · right
          rw [h]
          have hln : l ≠ [] := by
            intro he
            rw [he] at hl
            exact hl rfl
          obtain ⟨b, l2, rfl⟩ := List.exists_cons_of_ne_nil hln
          rw [List.getLast?_cons_cons]
    · rw [if_neg hpa]
      exact Or.inr rfl

theorem pyStripList_head (l : List Char) :
    ∀ c, (pyStripList l).head? = some c → isPySpace c = false := by
  intro c h
  unfold pyStripList at h
  rw [List.head?_reverse] at h
  rcases getLast_dropWhile isPySpace (l.dropWhile isPySpace).reverse with h2 | h2
  · rw [h2] at h
    simp at h
  · rw [h2, List.getLast?_reverse] at h
    exact dropWhile_head_false isPySpace l c h

theorem pyStripList_getLast (l : List Char) :
    ∀ c, (pyStripList l).getLast? = some c → isPySpace c = false := by
  intro c h
  unfold pyStripList at h
  rw [List.getLast?_reverse] at h
  exact dropWhile_head_false isPySpace _ c h

theorem pyStripList_length (l : List Char) : (pyStripList l).length ≤ l.length := by
  unfold pyStripList
  rw [List.length_reverse]
  calc ((l.dropWhile isPySpace).reverse.dropWhile isPySpace).length
      ≤ (l.dropWhile isPySpace).reverse.length :=
        ((List.dropWhile_suffix _).sublist).length_le
    _ = (l.dropWhile isPySpace).length := List.length_reverse _
    _ ≤ l.length := ((List.dropWhile_suffix _).sublist).length_le

theorem pyTruncStrip_length (s : String) : (pyTruncStrip s).length ≤ 5000 := by
  show (pyStripList (s.data.take 5000)).length ≤ 5000
  calc (pyStripList (s.data.take 5000)).length
      ≤ (s.data.take 5000).length := pyStripList_length _
    _ ≤ 5000 := by
        rw [List.length_take]
        exact inf_le_left

/-- C9: every record's preview has length at most 5000, and on the
successful-classification path it carries no leading or trailing
whitespace (it was trimmed). -/
theorem c9_preview_bounds :
    (∀ (env : FileEnv) (file_path : String) (r : RecD) (s : String),
        analyze_single_file env file_path = .ok r → getF r "preview" = some (.s s) →
        s.length ≤ 5000) ∧
    (∀ path e t s, getF (worker_error_record path e t) "preview" = some (.s s) →
        s.length ≤ 5000) ∧
    (∀ (env : FileEnv) (file_path : String) (output : MagikaOutput) (r : RecD) (s : String),
        env.magika = .ok output → analyze_single_file env file_path = .ok r →
        getF r "preview" = some (.s s) →
        (∀ c, s.data.head? = some c → isPySpace c = false) ∧
        (∀ c, s.data.getLast? = some c → isPySpace c = false)) := by
  refine ⟨?_, ?_, ?_⟩
  · intro env file_path r s hr hp
    rcases analyze_ok_cases env file_path r hr with ⟨e, _, hrec⟩ | ⟨o, sz, _, _, hrec⟩
    · subst hrec
      have h2 : (some (Val.s "[Error analyzing file]") : Option Val) = some (.s s) := hp
      obtain rfl : "[Error analyzing file]" = s := by simpa using h2
      decide
    · subst hrec
      rw [getF_success_preview] at hp
      have h2 : pyTruncStrip (scanFor env (mimeOf o env.guess_type)
          (pyToLower (splitextExt file_path))).preview = s := by simpa using hp
      rw [← h2]
      exact pyTruncStrip_length _
  · intro path e t s hp
    have h2 : (some (Val.s "[Error analyzing file]") : Option Val) = some (.s s) := hp
    obtain rfl : "[Error analyzing file]" = s := by simpa using h2
    decide
  · intro env file_path output r s hm hr hp
    rcases analyze_ok_cases env file_path r hr with ⟨e, he, _⟩ | ⟨o, sz, _, _, hrec⟩
    · rw [hm] at he
      exact absurd he (by simp)
    · subst hrec
      rw [getF_success_preview] at hp
      have h2 : pyTruncStrip (scanFor env (mimeOf o env.guess_type)
          (pyToLower (splitextExt file_path))).preview = s := by simpa using hp
      rw [← h2]
      exact ⟨pyStripList_head _, pyStripList_getLast _⟩

/-- C9 witness: the bound at a concrete healthy analysis. -/
theorem c9_preview_bounds_witness :
    ∃ r s, analyze_single_file envTxtOk "a.txt" = .ok r ∧
      getF r "preview" = some (.s s) ∧ s.length ≤ 5000 :=
  ⟨_, _, rfl, rfl, c9_preview_bounds.1 envTxtOk "a.txt" _ _ rfl rfl⟩

/-! ### C10: determinism up to the timestamp -/

theorem withNow_guess_type (env : FileEnv) (t : String) :
    (withNow env t).guess_type = env.guess_type := rfl

theorem withNow_now (env : FileEnv) (t : String) : (withNow env t).now = t := rfl

theorem scanFor_withNow (env : FileEnv) (t m e : String) :
    scanFor (withNow env t) m e = scanFor env m e := by
  obtain ⟨mg, gt, ct, cd, dec, dl, dn, gs, nw⟩ := env
  rfl

theorem filter_uploaded_success (fp m c : String) (cf : ℚ) (e : String) (sz : Nat)
    (t1 t2 : String) (scan : ScanOut) :
    (success_record fp m c cf e sz t1 scan).filter (fun kv => !(kv.1 == "uploaded")) =
    (success_record fp m c cf e sz t2 scan).filter (fun kv => !(kv.1 == "uploaded")) := rfl

theorem filter_uploaded_failure (fp e t1 t2 : String) :
    (magika_failure_record fp e t1).filter (fun kv => !(kv.1 == "uploaded")) =
    (magika_failure_record fp e t2).filter (fun kv => !(kv.1 == "uploaded")) := rfl

/-- C10: two analyses of the same file under identical oracle behavior
(identical bytes, classifier and detector outputs) that differ only in the
clock produce records identical in every field except `uploaded`. -/
theorem c10_determinism (env : FileEnv) (t file_path : String) :
    (analyze_single_file (withNow env t) file_path).map
      (fun r => r.filter (fun kv => !(kv.1 == "uploaded"))) =
    (analyze_single_file env file_path).map
      (fun r => r.filter (fun kv => !(kv.1 == "uploaded"))) := by
  cases hm : env.magika with
  | error e =>
    have hm2 : (withNow env t).magika = .error e := hm
    unfold analyze_single_file
    rw [hm2, hm]
    simp only [Except.map]
    exact congrArg Except.ok (filter_uploaded_failure file_path e t env.now)
  | ok output =>
    have hm2 : (withNow env t).magika = .ok output := hm
    cases hs : env.getsize with
    | error e =>
      have hs2 : (withNow env t).getsize = .error e := hs
      unfold analyze_single_file
      rw [hm2, hm, hs2, hs]
    | ok sz =>
      have hs2 : (withNow env t).getsize = .ok sz := hs
      rw [analyze_ok (withNow env t) file_path output sz hm2 hs2,
        analyze_ok env file_path output sz hm hs]
      simp only [Except.map]
      rw [withNow_guess_type, withNow_now, scanFor_withNow]
      exact congrArg Except.ok (filter_uploaded_success file_path
        (mimeOf output env.guess_type) (pyOrStr output.category "Unknown")
        (output.confidence.getD (99 / 100) * 100) (pyToLower (splitextExt file_path))
        sz t env.now (scanFor env (mimeOf output env.guess_type)
          (pyToLower (splitextExt file_path))))

end CIA
